import Mathlib

set_option linter.unusedVariables false

/-!
Shallow embedding of the prescription-recommendation core of the
workout-backend repository:
  app/workouts/services/train_prescription_model.py
  app/workouts/services/prescription_service.py
  app/workouts/schema/prescription_schemas.py
Machine floats are modelled as exact rationals; the fitted numeric models
(preprocessing transform, logistic classifier, neighbor index) are opaque
functions carried inside an artifact record, while every piece of logic
written in the repository itself (text normalization, tag extraction,
BMI and bucket computation, score combination, ranking, filtering,
validation, error signalling) is translated directly.
-/

namespace WorkoutRec

/-! ### Text normalization and tag extraction
    From train_prescription_model.py : normalize_text, KEYWORDS, extract_tags. -/

/-- Python whitespace (str.strip / regex \s), modelled over the ASCII
whitespace characters. -/
def isPySpace (c : Char) : Bool :=
  c == ' ' || c == '\t' || c == '\n' || c == '\r' || c == '\x0b' || c == '\x0c'

/-- str.lower, character by character (the notes and keywords are Korean or
ASCII, where Python lowercasing is per-character). -/
def lowerPy (s : List Char) : List Char := s.map Char.toLower

/-- Leading-whitespace removal. -/
def lstripWs (s : List Char) : List Char := s.dropWhile isPySpace

/-- Trailing-whitespace removal. -/
def rstripWs (s : List Char) : List Char := (s.reverse.dropWhile isPySpace).reverse

/-- str.strip(): remove whitespace at both ends. -/
def stripWs (s : List Char) : List Char := rstripWs (lstripWs s)

/-- re.sub(r"\s+", " ", s): replace every maximal whitespace run by a single
space.  The Boolean state records whether the previous character belonged to a
run already emitted. -/
def collapseWsAux : Bool → List Char → List Char
  | _, [] => []
  | prevWs, c :: cs =>
    if isPySpace c then
      if prevWs then collapseWsAux true cs
      else ' ' :: collapseWsAux true cs
    else c :: collapseWsAux false cs

/-- Whitespace-run collapsing with initial state "no run open". -/
def collapseWs (s : List Char) : List Char := collapseWsAux false s

/-- normalize_text: lowercase, strip, collapse internal whitespace runs. -/
def normalizeText (s : List Char) : List Char := collapseWs (stripWs (lowerPy s))

/-- KEYWORDS: tag vocabulary in source order, each with its keyword list. -/
def KEYWORDS : List (List Char × List (List Char)) :=
  [ ("walking".data, ["걷기".data, "만보".data, "빠르게 걷기".data, "속보".data, "파워워킹".data]),
    ("jogging".data, ["조깅".data, "러닝".data, "런닝".data, "러닝머신".data, "트레드밀".data, "가볍게 뛰기".data]),
    ("cycling".data, ["사이클".data, "자전거".data, "실내자전거".data, "스피닝".data]),
    ("swimming".data, ["수영".data, "자유형".data, "평영".data, "배영".data]),
    ("aerobic_interval".data, ["인터벌".data, "고강도".data, "interval".data, "HIIT".data, "스프린트".data]),
    ("strength_lower".data, ["스쿼트".data, "런지".data, "레그프레스".data, "레그컬".data, "힙쓰러스트".data, "데드리프트".data, "하체 근력".data]),
    ("strength_upper".data, ["푸시업".data, "벤치프레스".data, "랫풀다운".data, "풀업".data, "덤벨프레스".data, "숄더프레스".data, "상체 근력".data]),
    ("strength_core".data, ["플랭크".data, "데드버그".data, "버드독".data, "크런치".data, "복근".data, "코어".data]),
    ("flexibility".data, ["스트레칭".data, "유연성".data, "햄스트링 스트레칭".data, "전굴".data, "하체 스트레칭".data, "상체 스트레칭".data]),
    ("balance".data, ["균형".data, "밸런스".data, "스텝".data, "자세 안정".data, "싱글 레그 스탠스".data]) ]

/-- TAGS = list(KEYWORDS.keys()). -/
def TAGS : List (List Char) := KEYWORDS.map (·.1)

/-- Python substring containment `kw in note`. -/
def substrIn (kw note : List Char) : Bool := decide (kw <:+: note)

/-- extract_tags on an already-normalized note: a tag is included when any of
its keywords occurs as a plain substring (Python `kw in note_norm`; the inner
break only stops scanning that tag's keywords, which `List.any` reproduces).
The source returns list(set(found)); `found` holds each tag at most once, so
the set wrapper can only permute, and the claims below use membership only —
we keep vocabulary order. -/
def extractTags (noteNorm : List Char) : List (List Char) :=
  (KEYWORDS.filter (fun p => p.2.any (fun kw => substrIn kw noteNorm))).map (·.1)

/-- Tag extraction from a raw note: extract_tags ∘ normalize_text, the
composition applied to every training note. -/
def extractFromNote (s : List Char) : List (List Char) :=
  extractTags (normalizeText s)

/-! ### BMI and BMI-bucket computation
    Three bucket computations exist in the repository:
    * the batch trainer: `pd.cut(df["bmi"], bins=bmi_bins, labels=False,
      include_lowest=True)` (train_prescription_model.py, train_model);
    * the live service: `pd.cut([bmi], bins=self.meta["bmi_bins"],
      labels=False, include_lowest=True)[0]` (prescription_service.py,
      predict_prescription);
    * the recommend_top3 helper: `np.digitize([bmi], bins=bmi_bins[1:-1],
      right=False)[0]` (train_prescription_model.py, recommend_top3). -/

/-- compute_bmi: weight / (height/100)², NaN (modelled as none) when the
height in meters is ≤ 0. -/
def computeBmi (height_cm weight_kg : ℚ) : Option ℚ :=
  let h_m := height_cm / 100
  if h_m ≤ 0 then none else some (weight_kg / h_m ^ 2)

/-- The live service computes BMI inline with no guard:
`bmi = weight_kg / ((height_cm / 100.0) ** 2)` (a zero height raises
ZeroDivisionError there, handled where the service is modelled below). -/
def serviceBmi (height_cm weight_kg : ℚ) : ℚ :=
  weight_kg / (height_cm / 100) ^ 2

/-- bmi_bins = [0, 16, 18.5, 23, 25, 30, 35, 100], the trainer's constant,
persisted into the artifact metadata as meta["bmi_bins"]. -/
def bmiBins : List ℚ := [0, 16, 18.5, 23, 25, 30, 35, 100]

/-- Scan of the upper bin edges for pd.cut with right-closed intervals:
the first edge b with x ≤ b gives the interval index. -/
def pdCutGo (x : ℚ) : List ℚ → ℕ → Option ℕ
  | [], _ => none
  | b :: bs, i => if x ≤ b then some i else pdCutGo x bs (i + 1)

/-- pandas pd.cut(x, bins, labels=False, include_lowest=True): intervals
[b₀,b₁], (b₁,b₂], …, (bₙ₋₁,bₙ]; values below b₀ or above bₙ get NaN
(modelled as none). -/
def pdCutBucket (bins : List ℚ) (x : ℚ) : Option ℕ :=
  match bins with
  | [] => none
  | b₀ :: rest => if x < b₀ then none else pdCutGo x rest 0

/-- The batch trainer's bucket: pd.cut over the bmi_bins constant. -/
def trainBmiBucket (x : ℚ) : Option ℕ := pdCutBucket bmiBins x

/-- The live service's bucket: pd.cut over the artifact's meta["bmi_bins"]. -/
def serveBmiBucket (bins : List ℚ) (x : ℚ) : Option ℕ := pdCutBucket bins x

/-- np.digitize(x, bins, right=False) for increasing bins: the index i with
bins[i-1] ≤ x < bins[i], i.e. the number of bin edges ≤ x. -/
def digitizeCount (bins : List ℚ) (x : ℚ) : ℕ :=
  (bins.filter (fun b => decide (b ≤ x))).length

/-- recommend_top3's bucket: np.digitize over the interior edges
bmi_bins[1:-1] of the artifact's meta["bmi_bins"]. -/
def recommendBmiBucket (bins : List ℚ) (x : ℚ) : ℕ :=
  digitizeCount ((bins.drop 1).dropLast) x

/-- Modelled from the spec's words (§4.2 Feature Builder), for comparison
with the code's bucket functions: "locate the half-open interval
[boundaries[i], boundaries[i+1]) containing bmi using the fixed boundary
list [0, 16, 18.5, 23, 25, 30, 35, 100]; leftmost boundary inclusive,
values below the first or above the last boundary clamp to the nearest
edge bucket". -/
def specBmiBucket (x : ℚ) : ℕ :=
  if x < 16 then 0
  else if x < 18.5 then 1
  else if x < 23 then 2
  else if x < 25 then 3
  else if x < 30 then 4
  else if x < 35 then 5
  else 6

/-! ### Ranking and the inference service
    From prescription_service.py (PrescriptionService.predict_prescription)
    and train_prescription_model.py (recommend_top3). -/

/-- np.clip(v, lo, hi): values below lo become lo, above hi become hi. -/
def clip (lo hi x : ℚ) : ℚ := max lo (min x hi)

/-- Insert index i into a list already sorted by descending score, after
every held index with a strictly greater score. -/
def insertByScore (s : List ℚ) (i : ℕ) : List ℕ → List ℕ
  | [] => [i]
  | j :: rest =>
    if s.getD i 0 < s.getD j 0 then j :: insertByScore s i rest
    else i :: j :: rest

/-- np.argsort(score)[::-1]: indices of score sorted by descending value.
For tied values the ascending argsort keeps index order (numpy's sort leaves
equal elements in place on these small inputs), so the reversal places the
larger index first; inserting indices in increasing order with
`insertByScore` produces exactly that order (descending score, ties broken
by descending index). -/
def argsortDesc (s : List ℚ) : List ℕ :=
  (List.range s.length).foldl (fun acc i => insertByScore s i acc) []

/-- tag_to_korean, the display-label dictionary in predict_prescription. -/
def tagKoreanMap : List (List Char × List Char) :=
  [ ("walking".data, "걷기".data),
    ("jogging".data, "조깅".data),
    ("cycling".data, "자전거".data),
    ("swimming".data, "수영".data),
    ("aerobic_interval".data, "고강도 인터벌".data),
    ("strength_lower".data, "하체 근력 운동".data),
    ("strength_upper".data, "상체 근력 운동".data),
    ("strength_core".data, "코어 운동".data),
    ("flexibility".data, "스트레칭".data),
    ("balance".data, "균형 운동".data) ]

/-- tag_to_korean.get(tag, tag): lookup with fallback to the raw tag id. -/
def tagToKorean (t : List Char) : List Char :=
  ((tagKoreanMap.find? (fun p => p.1 == t)).map (·.2)).getD t

/-- The persisted model bundle as the service sees it.  The fitted numeric
models (preprocessing transform composed with the classifier, the neighbor
index, knn.predict) are opaque functions of the raw feature row
(height, weight, bmi, bmi_bucket); everything the repository computes
around them is translated literally. -/
structure Artifact where
  /-- meta["bmi_bins"]. -/
  bins : List ℚ
  /-- meta["tags"]. -/
  tags : List (List Char)
  /-- preprocess.transform followed by ovr_lr.predict_proba, one probability
  per tag.  The bucket argument is none when pd.cut produced NaN. -/
  predictProba : ℚ → ℚ → ℚ → Option ℕ → List ℚ
  /-- knn.kneighbors(·, n_neighbors=7, return_distance=True):
  the 7 nearest distances and training-row indices. -/
  kneighbors : ℚ → ℚ → ℚ → Option ℕ → List ℚ × List ℕ
  /-- knn._y, the training label matrix, when the neighbor model retains it. -/
  knnLabels : Option (List (List ℚ))
  /-- knn.predict on the single query row (the recommend_top3 fallback:
  np.mean over axis 0 of a one-row matrix is that row itself). -/
  knnPredict : ℚ → ℚ → ℚ → Option ℕ → List ℚ

/-- One entry of the returned candidate list:
{"pres_note": …, "prob": …}. -/
structure Candidate where
  pres_note : List Char
  prob : ℚ
  deriving DecidableEq, Repr

/-- The body of PrescriptionService.predict_prescription after the
model-loaded check (prescription_service.py lines 80-140): BMI, pd.cut
bucket, clipped logistic probabilities, the neighbor distances and
normalized inverse-distance weights (computed and then left unused by the
source: `score = proba_lr  # 로지스틱만 사용`), descending argsort, top_k
selection, Korean display labels.  The conf_thr parameter of the service is
accepted but never read, so it does not appear here.
The final per-tag score of the live service is
`score = proba_lr  # 로지스틱만 사용` — the clipped logistic probabilities
alone, the commented-out hybrid combination with score_knn notwithstanding. -/
def serviceScores (art : Artifact) (height_cm weight_kg : ℚ) : List ℚ :=
  let bmi := serviceBmi height_cm weight_kg
  let bucket := serveBmiBucket art.bins bmi
  (art.predictProba height_cm weight_kg bmi bucket).map
    (clip (1 / 1000000000) (1 - 1 / 1000000000))

/-- The rest of the predict_prescription body: the neighbor distances and
normalized inverse-distance weights (computed and then left unused by the
source), descending argsort of the score, top_k selection, Korean display
labels. -/
def predictCore (art : Artifact) (height_cm weight_kg : ℚ) (top_k : ℕ) :
    List Candidate :=
  let bmi := serviceBmi height_cm weight_kg
  let bucket := serveBmiBucket art.bins bmi
  let score := serviceScores art height_cm weight_kg
  let neigh := art.kneighbors height_cm weight_kg bmi bucket
  let wRaw := neigh.1.map (fun d => 1 / (d + 1 / 1000000))
  let wNorm := wRaw.map (fun v => v / wRaw.sum)
  let order := (argsortDesc score).take top_k
  order.map (fun i => ⟨tagToKorean (art.tags.getD i []), score.getD i 0⟩)

/-- The service's failure modes, both raised as ValueError in the source but
with distinct messages: "모델이 로드되지 않았습니다…" when no artifact is
available after the lazy reload attempt, and "처방 예측 실패: …" wrapping any
exception of the prediction body (for a zero height, the ZeroDivisionError
of the inline BMI expression). -/
inductive PredictErr where
  | modelUnavailable
  | predictionFailed
  deriving DecidableEq, Repr

/-- The service's model state: the artifact loaded at construction (if any)
and the artifact a lazy (re)load would find on disk (none when the load
fails or files are missing). -/
structure ServiceState where
  loaded : Option Artifact
  diskArtifact : Option Artifact

/-- PrescriptionService.predict_prescription: when the model is not loaded,
one lazy load attempt; failing that, the model-unavailable ValueError.
Otherwise the prediction body runs (zero height raises inside the try block
and is re-raised as the prediction-failure ValueError).  conf_thr is
accepted and unused, exactly as in the source. -/
def servicePredict (st : ServiceState) (height_cm weight_kg : ℚ)
    (top_k : ℕ) (conf_thr : ℚ) : Except PredictErr (List Candidate) :=
  match st.loaded.or st.diskArtifact with
  | none => .error .modelUnavailable
  | some art =>
    if height_cm = 0 then .error .predictionFailed
    else .ok (predictCore art height_cm weight_kg top_k)

/-- PrescriptionRequest (prescription_schemas.py): pydantic field
constraints height_cm > 0, weight_kg > 0, 1 ≤ top_k ≤ 10,
0 ≤ conf_thr ≤ 1.  A request violating them is rejected with a pydantic
ValidationError (InvalidInput) before any service code runs.  No route in
the repository parses this schema; the deployed endpoint passes stored user
height/weight straight to the service. -/
def validPrescriptionRequest (height_cm weight_kg : ℚ) (top_k : ℕ)
    (conf_thr : ℚ) : Bool :=
  decide (0 < height_cm) && decide (0 < weight_kg) &&
  decide (1 ≤ top_k) && decide (top_k ≤ 10) &&
  decide (0 ≤ conf_thr) && decide (conf_thr ≤ 1)

/-! ### recommend_top3 (train_prescription_model.py lines 288-329). -/

/-- (w @ Y)[0]: the row-vector-by-matrix product of the source's
`score_knn = (w @ knn._y)[0]` — entry k is Σⱼ w[j] * Y[j][k], pairing the
distance-ordered weight j with TRAINING ROW j of the label matrix in
storage order.  The source never indexes by neigh_idx here, and the
product is shape-correct only when the training set has exactly 7 rows. -/
def rowMatMul (w : List ℚ) (Y : List (List ℚ)) : List ℚ :=
  (List.range (Y.headD []).length).map (fun k =>
    (List.zipWith (fun wi row => wi * row.getD k 0) w Y).sum)

/-- recommend_top3's clipped logistic probabilities
`np.clip(ovr_lr.predict_proba(X_mat), 1e-9, 1 - 1e-9)[0]`. -/
def recommendProba (art : Artifact) (height_cm weight_kg bmi : ℚ) : List ℚ :=
  (art.predictProba height_cm weight_kg bmi
      (some (recommendBmiBucket art.bins bmi))).map
    (clip (1 / 1000000000) (1 - 1 / 1000000000))

/-- recommend_top3's normalized inverse-distance neighbor weights
`w = 1 / (neigh_dist + 1e-6); w = w / w.sum(...)`. -/
def recommendWeights (art : Artifact) (height_cm weight_kg bmi : ℚ) : List ℚ :=
  let neigh := art.kneighbors height_cm weight_kg bmi
    (some (recommendBmiBucket art.bins bmi))
  let wRaw := neigh.1.map (fun d => 1 / (d + 1 / 1000000))
  wRaw.map (fun v => v / wRaw.sum)

/-- recommend_top3's per-tag score vector: the knn score is
`(w @ knn._y)[0]` when the label matrix is retained — the weights applied
to the label-matrix rows in storage order (the computed neigh_idx is never
used) — else `np.mean(knn.predict(X_mat), axis=0)`; the hybrid combination
is score = 0.7 * proba_lr + 0.3 * score_knn in both cases. -/
def recommendScore (art : Artifact) (height_cm weight_kg bmi : ℚ) : List ℚ :=
  let proba := recommendProba art height_cm weight_kg bmi
  let scoreKnn :=
    match art.knnLabels with
    | some Y => rowMatMul (recommendWeights art height_cm weight_kg bmi) Y
    | none => art.knnPredict height_cm weight_kg bmi
        (some (recommendBmiBucket art.bins bmi))
  List.zipWith (fun p k => 7 / 10 * p + 3 / 10 * k) proba scoreKnn

/-- recommend_top3: compute_bmi (none on nonpositive height, where the
source would propagate NaN), the digitize bucket, the hybrid score, and the
top TOP_K = 3 tags by descending score. -/
def recommendTop3 (art : Artifact) (height_cm weight_kg : ℚ) :
    Option (ℚ × List (List Char × ℚ)) :=
  match computeBmi height_cm weight_kg with
  | none => none
  | some bmi =>
    let score := recommendScore art height_cm weight_kg bmi
    let order := (argsortDesc score).take 3
    some (bmi, order.map (fun i => (art.tags.getD i [], score.getD i 0)))

/-! ### The training pipeline (train_prescription_model.py, train_model)
    The sklearn model fitting and the artifact file writes are the final
    step; the pipeline up to that point (loading filter, outlier removal,
    tag extraction, empty-dataset early returns) is pure data plumbing and
    is translated literally.  `trainModel` returns none exactly on the
    early-return paths, where the source returns before any of the four
    artifact files (preprocess, classifier, neighbor model, metadata) is
    written; a some result corresponds to the run that writes all four. -/

/-- One row as load_data_from_db sees it: a field is none when NULL,
empty, or unparsable as a float (the try/except around float(...)). -/
structure RawRecord where
  height_cm : Option ℚ
  weight_kg : Option ℚ
  pres_note : Option (List Char)

/-- The load filter: all three fields present, height and weight truthy
(Python `if height and weight and pres_note`: 0.0 is falsy), note nonempty
after strip.  The note is stored stripped. -/
def usableLoad (r : RawRecord) : Option (ℚ × ℚ × List Char) :=
  match r.height_cm, r.weight_kg, r.pres_note with
  | some h, some w, some n =>
    let n' := stripWs n
    if h ≠ 0 ∧ w ≠ 0 ∧ n' ≠ [] then some (h, w, n') else none
  | _, _, _ => none

/-- Configured plausible bounds (module constants MIN_/MAX_ HEIGHT,
WEIGHT, BMI). -/
def MIN_HEIGHT : ℚ := 120
def MAX_HEIGHT : ℚ := 220
def MIN_WEIGHT : ℚ := 30
def MAX_WEIGHT : ℚ := 250
def MIN_BMI : ℚ := 10
def MAX_BMI : ℚ := 60

/-- df.between with inclusive="both"; a NaN BMI (none) compares False. -/
def betweenQ (lo hi : ℚ) : Option ℚ → Bool
  | none => false
  | some x => decide (lo ≤ x) && decide (x ≤ hi)

/-- The outlier mask of step 3 of train_model. -/
def inlierRow (h w : ℚ) (bmi : Option ℚ) : Bool :=
  betweenQ MIN_HEIGHT MAX_HEIGHT (some h) &&
  betweenQ MIN_WEIGHT MAX_WEIGHT (some w) &&
  betweenQ MIN_BMI MAX_BMI bmi

/-- A fully derived training row. -/
structure TrainRow where
  height_cm : ℚ
  weight_kg : ℚ
  note_norm : List Char
  bmi : ℚ
  tags : List (List Char)
  deriving Repr, DecidableEq

/-- Steps 1-3 of train_model: the loaded rows with note normalization, BMI
derivation and the outlier mask applied (tag extraction follows). -/
def trainRows1 (records : List RawRecord) : List TrainRow :=
  (records.filterMap usableLoad).filterMap (fun (h, w, n) =>
    let bmi := computeBmi h w
    if inlierRow h w bmi then
      match bmi with
      | some b => some ⟨h, w, normalizeText n, b, extractFromNote n⟩
      | none => none
    else none)

/-- Step 4 of train_model: `df = df[df["tags"].map(len) > 0]` — the rows
surviving every filter of the Dataset Preparer. -/
def preparedRows (records : List RawRecord) : List TrainRow :=
  (trainRows1 records).filter (fun r => r.tags ≠ [])

/-- to_multihot: one column per vocabulary tag, 1 when present. -/
def toMultihot (tagList : List (List Char)) (allTags : List (List Char)) :
    List ℕ :=
  allTags.map (fun t => if t ∈ tagList then 1 else 0)

/-- What a completed training run persists (the four artifact files):
the fitted models are opaque, the metadata fields are the computed ones. -/
structure TrainOutput where
  rows : List TrainRow
  labelMatrix : List (List ℕ)
  buckets : List (Option ℕ)
  tags : List (List Char)
  bins : List ℚ
  n_samples : ℕ
  deriving Repr

/-- train_model as a function of the loaded rows: the three early returns
(no data, no data after outlier removal, no record with an extracted tag)
yield none with no artifact file written;  otherwise the multihot label
matrix and the pd.cut buckets are built and the run proceeds to fit and to
write all four files (the numeric fitting itself is opaque).  The
intermediate emptiness checks are sequential, as in the source. -/
def trainModel (records : List RawRecord) : Option TrainOutput :=
  let rows0 := records.filterMap usableLoad
  if rows0 = [] then none
  else
    let rows1 := trainRows1 records
    if rows1 = [] then none
    else
      let rows2 := preparedRows records
      if rows2 = [] then none
      else
        let Y := rows2.map (fun r => toMultihot r.tags TAGS)
        let buckets := rows2.map (fun r => trainBmiBucket r.bmi)
        some ⟨rows2, Y, buckets, TAGS, bmiBins, rows2.length⟩

/-! ### Cross-validation protocol (train_model step 7).
    The per-fold model refits are opaque numerics; the fold count, the
    hybrid scoring formula, the 0.5 binarization and the empty-prediction
    repair are the source's own arithmetic. -/

/-- N_SPLITS and the shuffled KFold parameters. -/
def N_SPLITS : ℕ := 5
def RANDOM_STATE : ℕ := 42
def cvShuffle : Bool := true

/-- KFold(n_splits=min(N_SPLITS, max(2, len(df)//50)), shuffle=True,
random_state=RANDOM_STATE). -/
def nSplitsFor (n : ℕ) : ℕ := min N_SPLITS (max 2 (n / 50))

/-- The hybrid validation score of one row:
score = 0.7 * proba_lr + 0.3 * score_knn, elementwise. -/
def cvScoreRow (probaLr scoreKnn : List ℚ) : List ℚ :=
  List.zipWith (fun p k => 7 / 10 * p + 3 / 10 * k) probaLr scoreKnn

/-- (score >= 0.5).astype(int). -/
def binarizeRow (s : List ℚ) : List ℕ :=
  s.map (fun x => if 1 / 2 ≤ x then 1 else 0)

/-- np.argmax over the remaining entries, first index of the maximum. -/
def argmaxAux : List ℚ → ℕ → ℕ → ℚ → ℕ
  | [], _, best, _ => best
  | x :: xs, i, best, bv =>
    if bv < x then argmaxAux xs (i + 1) i x
    else argmaxAux xs (i + 1) best bv

/-- np.argmax: index of the first maximal entry (0 on an empty row, which
numpy would reject). -/
def argmax : List ℚ → ℕ
  | [] => 0
  | x :: xs => argmaxAux xs 1 0 x

/-- The empty-prediction repair: rows of Y_pred summing to 0 get their
single top-scoring entry forced to 1
(`top1 = np.argmax(score[zeros], axis=1); Y_pred[zeros, top1] = 1`). -/
def forceNonzero (s : List ℚ) : List ℕ :=
  let y := binarizeRow s
  if y.sum = 0 then y.set (argmax s) 1 else y

/-! ### Bucket comparison lemmas -/

/-- recommend_top3's digitize bucket realizes exactly the spec's half-open,
left-inclusive, edge-clamping interval index. -/
lemma digitize_eq_spec (x : ℚ) :
    recommendBmiBucket bmiBins x = specBmiBucket x := by
  show (List.filter (fun b => decide (b ≤ x)) [16, 18.5, 23, 25, 30, 35]).length
      = specBmiBucket x
  unfold specBmiBucket
  rcases lt_or_le x 16 with h1 | h1
  · have n1 : ¬((16:ℚ) ≤ x) := not_le.mpr h1
    have n2 : ¬((18.5:ℚ) ≤ x) := not_le.mpr (by linarith)
    have n3 : ¬((23:ℚ) ≤ x) := not_le.mpr (by linarith)
    have n4 : ¬((25:ℚ) ≤ x) := not_le.mpr (by linarith)
    have n5 : ¬((30:ℚ) ≤ x) := not_le.mpr (by linarith)
    have n6 : ¬((35:ℚ) ≤ x) := not_le.mpr (by linarith)
    simp [List.filter_cons, n1, n2, n3, n4, n5, n6, h1]
  · rcases lt_or_le x 18.5 with h2 | h2
    · have n2 : ¬((18.5:ℚ) ≤ x) := not_le.mpr h2
      have n3 : ¬((23:ℚ) ≤ x) := not_le.mpr (by linarith)
      have n4 : ¬((25:ℚ) ≤ x) := not_le.mpr (by linarith)
      have n5 : ¬((30:ℚ) ≤ x) := not_le.mpr (by linarith)
      have n6 : ¬((35:ℚ) ≤ x) := not_le.mpr (by linarith)
      simp [List.filter_cons, h1, n2, n3, n4, n5, n6, not_lt.mpr h1, h2]
    · rcases lt_or_le x 23 with h3 | h3
      · have b2 : (18.5:ℚ) ≤ x := h2
        have n3 : ¬((23:ℚ) ≤ x) := not_le.mpr h3
        have n4 : ¬((25:ℚ) ≤ x) := not_le.mpr (by linarith)
        have n5 : ¬((30:ℚ) ≤ x) := not_le.mpr (by linarith)
        have n6 : ¬((35:ℚ) ≤ x) := not_le.mpr (by linarith)
        simp [List.filter_cons, h1, b2, n3, n4, n5, n6,
          not_lt.mpr h1, not_lt.mpr b2, h3]
      · rcases lt_or_le x 25 with h4 | h4
        · have b3 : (23:ℚ) ≤ x := h3
          have n4 : ¬((25:ℚ) ≤ x) := not_le.mpr h4
          have n5 : ¬((30:ℚ) ≤ x) := not_le.mpr (by linarith)
          have n6 : ¬((35:ℚ) ≤ x) := not_le.mpr (by linarith)
          simp [List.filter_cons, h1, (by linarith : (18.5:ℚ) ≤ x), b3,
            n4, n5, n6, not_lt.mpr h1, not_lt.mpr b3,
            not_lt.mpr (by linarith : (18.5:ℚ) ≤ x), h4]
        · rcases lt_or_le x 30 with h5 | h5
          · have b4 : (25:ℚ) ≤ x := h4
            have n5 : ¬((30:ℚ) ≤ x) := not_le.mpr h5
            have n6 : ¬((35:ℚ) ≤ x) := not_le.mpr (by linarith)
            simp [List.filter_cons, h1, (by linarith : (18.5:ℚ) ≤ x),
              (by linarith : (23:ℚ) ≤ x), b4, n5, n6,
              not_lt.mpr h1, not_lt.mpr b4,
              not_lt.mpr (by linarith : (18.5:ℚ) ≤ x),
              not_lt.mpr (by linarith : (23:ℚ) ≤ x), h5]
          · rcases lt_or_le x 35 with h6 | h6
            · have b5 : (30:ℚ) ≤ x := h5
              have n6 : ¬((35:ℚ) ≤ x) := not_le.mpr h6
              simp [List.filter_cons, h1, (by linarith : (18.5:ℚ) ≤ x),
                (by linarith : (23:ℚ) ≤ x), (by linarith : (25:ℚ) ≤ x),
                b5, n6, not_lt.mpr h1, not_lt.mpr b5,
                not_lt.mpr (by linarith : (18.5:ℚ) ≤ x),
                not_lt.mpr (by linarith : (23:ℚ) ≤ x),
                not_lt.mpr (by linarith : (25:ℚ) ≤ x), h6]
            · have b6 : (35:ℚ) ≤ x := h6
              simp [List.filter_cons, h1, (by linarith : (18.5:ℚ) ≤ x),
                (by linarith : (23:ℚ) ≤ x), (by linarith : (25:ℚ) ≤ x),
                (by linarith : (30:ℚ) ≤ x), b6, not_lt.mpr h1, not_lt.mpr b6,
                not_lt.mpr (by linarith : (18.5:ℚ) ≤ x),
                not_lt.mpr (by linarith : (23:ℚ) ≤ x),
                not_lt.mpr (by linarith : (25:ℚ) ≤ x),
                not_lt.mpr (by linarith : (30:ℚ) ≤ x)]

/-- Away from the interior boundaries and inside [0, 100], the pd.cut bucket
of the trainer/service agrees with the spec's half-open interval index. -/
lemma pdCut_eq_spec (x : ℚ) (h0 : 0 ≤ x) (h100 : x ≤ 100)
    (hnb : x ∉ ([16, 18.5, 23, 25, 30, 35] : List ℚ)) :
    trainBmiBucket x = some (specBmiBucket x) := by
  have hne : x ≠ 16 ∧ x ≠ 18.5 ∧ x ≠ 23 ∧ x ≠ 25 ∧ x ≠ 30 ∧ x ≠ 35 := by
    simpa [not_or] using hnb
  obtain ⟨e1, e2, e3, e4, e5, e6⟩ := hne
  show (if x < 0 then none else pdCutGo x [16, 18.5, 23, 25, 30, 35, 100] 0)
      = some (specBmiBucket x)
  rw [if_neg (not_lt.mpr h0)]
  unfold specBmiBucket
  rcases lt_or_le x 16 with h1 | h1
  · simp [pdCutGo, le_of_lt h1, h1]
  · have g1 : ¬(x ≤ 16) := not_le.mpr (lt_of_le_of_ne h1 (Ne.symm e1))
    rcases lt_or_le x 18.5 with h2 | h2
    · simp [pdCutGo, g1, le_of_lt h2, not_lt.mpr h1, h2]
    · have g2 : ¬(x ≤ 18.5) := not_le.mpr (lt_of_le_of_ne h2 (Ne.symm e2))
      rcases lt_or_le x 23 with h3 | h3
      · simp [pdCutGo, g1, g2, le_of_lt h3, not_lt.mpr h1, not_lt.mpr h2, h3]
      · have g3 : ¬(x ≤ 23) := not_le.mpr (lt_of_le_of_ne h3 (Ne.symm e3))
        rcases lt_or_le x 25 with h4 | h4
        · simp [pdCutGo, g1, g2, g3, le_of_lt h4,
            not_lt.mpr h1, not_lt.mpr h2, not_lt.mpr h3, h4]
        · have g4 : ¬(x ≤ 25) := not_le.mpr (lt_of_le_of_ne h4 (Ne.symm e4))
          rcases lt_or_le x 30 with h5 | h5
          · simp [pdCutGo, g1, g2, g3, g4, le_of_lt h5,
              not_lt.mpr h1, not_lt.mpr h2, not_lt.mpr h3, not_lt.mpr h4, h5]
          · have g5 : ¬(x ≤ 30) := not_le.mpr (lt_of_le_of_ne h5 (Ne.symm e5))
            rcases lt_or_le x 35 with h6 | h6
            · simp [pdCutGo, g1, g2, g3, g4, g5, le_of_lt h6,
                not_lt.mpr h1, not_lt.mpr h2, not_lt.mpr h3, not_lt.mpr h4,
                not_lt.mpr h5, h6]
            · have g6 : ¬(x ≤ 35) := not_le.mpr (lt_of_le_of_ne h6 (Ne.symm e6))
              simp [pdCutGo, g1, g2, g3, g4, g5, g6, h100,
                not_lt.mpr h1, not_lt.mpr h2, not_lt.mpr h3, not_lt.mpr h4,
                not_lt.mpr h5, not_lt.mpr h6]

/-! ### Normalization is append-monotone: the normalized text of a note is a
prefix of the normalized text of the note with anything appended. -/

lemma dropWhile_append_cases (p : Char → Bool) (a b : List Char) :
    List.dropWhile p (a ++ b) =
      if List.dropWhile p a = [] then List.dropWhile p b
      else List.dropWhile p a ++ b := by
  induction a with
  | nil => simp
  | cons c cs ih =>
    by_cases hc : p c
    · simpa [List.dropWhile_cons, hc] using ih
    · simp [List.dropWhile_cons, hc]

/-- The collapse state after a block of characters: whitespace-run-open iff
the block's last character is whitespace (the initial state if empty). -/
def wsState : Bool → List Char → Bool
  | st, [] => st
  | _, c :: cs => wsState (isPySpace c) cs

lemma collapseWsAux_append (st : Bool) (v z : List Char) :
    collapseWsAux st (v ++ z) =
      collapseWsAux st v ++ collapseWsAux (wsState st v) z := by
  induction v generalizing st with
  | nil => simp [collapseWsAux, wsState]
  | cons c cs ih =>
    by_cases hc : isPySpace c
    · by_cases hst : st = true
      · simp [collapseWsAux, wsState, hc, hst, ih]
      · simp [collapseWsAux, wsState, hc, hst, ih]
    · simp [collapseWsAux, wsState, hc, ih]

lemma collapseWs_append (v z : List Char) :
    collapseWs (v ++ z) =
      collapseWs v ++ collapseWsAux (wsState false v) z :=
  collapseWsAux_append false v z

lemma rstripWs_append_ws {z : List Char} (hz : ∀ c ∈ z, isPySpace c)
    (v : List Char) : rstripWs (v ++ z) = rstripWs v := by
  unfold rstripWs
  rw [List.reverse_append, dropWhile_append_cases, if_pos]
  rw [List.dropWhile_eq_nil_iff]
  intro c hc
  exact hz c (List.mem_reverse.mp hc)

lemma rstripWs_append_keep {z : List Char}
    (hz : List.dropWhile isPySpace z.reverse ≠ []) (v : List Char) :
    rstripWs (v ++ z) = v ++ rstripWs z := by
  unfold rstripWs
  rw [List.reverse_append, dropWhile_append_cases, if_neg hz,
    List.reverse_append, List.reverse_reverse]

lemma rstrip_decomp (u : List Char) :
    ∃ w, u = rstripWs u ++ w ∧ ∀ c ∈ w, isPySpace c := by
  refine ⟨(List.takeWhile isPySpace u.reverse).reverse, ?_, ?_⟩
  · conv_lhs => rw [← List.reverse_reverse u,
      ← List.takeWhile_append_dropWhile (p := isPySpace) (l := u.reverse)]
    rw [List.reverse_append]
    rfl
  · intro c hc
    exact List.mem_takeWhile_imp (List.mem_reverse.mp hc)

/-- Appending text to a note extends its normalization on the right:
normalize_text s is a prefix of normalize_text (s ++ t). -/
lemma normalizeText_prefix (s t : List Char) :
    normalizeText s <+: normalizeText (s ++ t) := by
  show collapseWs (rstripWs (lstripWs (lowerPy s)))
      <+: collapseWs (rstripWs (lstripWs (lowerPy (s ++ t))))
  have hmap : lowerPy (s ++ t) = lowerPy s ++ lowerPy t :=
    List.map_append _ _ _
  rw [hmap]
  have hl : lstripWs (lowerPy s ++ lowerPy t) =
      if lstripWs (lowerPy s) = [] then lstripWs (lowerPy t)
      else lstripWs (lowerPy s) ++ lowerPy t :=
    dropWhile_append_cases _ _ _
  rw [hl]
  by_cases ha : lstripWs (lowerPy s) = []
  · rw [if_pos ha, ha]
    exact List.nil_prefix
  · rw [if_neg ha]
    by_cases hb : ∀ c ∈ lowerPy t, isPySpace c
    · rw [rstripWs_append_ws hb]
    · have hbne : List.dropWhile isPySpace (lowerPy t).reverse ≠ [] := by
        intro hnil
        exact hb (fun c hc =>
          List.dropWhile_eq_nil_iff.mp hnil c (List.mem_reverse.mpr hc))
      rw [rstripWs_append_keep hbne]
      obtain ⟨w, huw, hwws⟩ := rstrip_decomp (lstripWs (lowerPy s))
      conv_rhs => rw [huw, List.append_assoc]
      rw [collapseWs_append]
      exact List.prefix_append _ _

/-! ### Ordering facts about argsortDesc -/

/-- The total order realized by `np.argsort(score)[::-1]`: strictly greater
score first, ties broken by the larger index. -/
def DescTie (s : List ℚ) (i j : ℕ) : Prop :=
  s.getD j 0 < s.getD i 0 ∨ (s.getD i 0 = s.getD j 0 ∧ j < i)

lemma mem_insertByScore {s : List ℚ} {i x : ℕ} {acc : List ℕ} :
    x ∈ insertByScore s i acc ↔ x = i ∨ x ∈ acc := by
  induction acc with
  | nil => simp [insertByScore]
  | cons j rest ih =>
    by_cases hc : s.getD i 0 < s.getD j 0
    · simp only [insertByScore, if_pos hc, List.mem_cons, ih]
      tauto
    · simp only [insertByScore]
      rw [if_neg hc]
      simp [List.mem_cons]

lemma pairwise_insertByScore {s : List ℚ} {i : ℕ} {acc : List ℕ}
    (hp : acc.Pairwise (DescTie s)) (hb : ∀ j ∈ acc, j < i) :
    (insertByScore s i acc).Pairwise (DescTie s) := by
  induction acc with
  | nil => simp [insertByScore]
  | cons j rest ih =>
    rw [List.pairwise_cons] at hp
    obtain ⟨hjrest, hrest⟩ := hp
    by_cases hc : s.getD i 0 < s.getD j 0
    · simp only [insertByScore, if_pos hc]
      rw [List.pairwise_cons]
      refine ⟨?_, ih hrest (fun x hx => hb x (List.mem_cons_of_mem _ hx))⟩
      intro y hy
      rcases mem_insertByScore.mp hy with rfl | hyr
      · exact Or.inl hc
      · exact hjrest y hyr
    · simp only [insertByScore, if_neg hc]
      rw [List.pairwise_cons]
      have hji : s.getD j 0 ≤ s.getD i 0 := not_lt.mp hc
      refine ⟨?_, List.pairwise_cons.mpr ⟨hjrest, hrest⟩⟩
      intro y hy
      rcases List.mem_cons.mp hy with rfl | hyr
      · rcases eq_or_lt_of_le hji with heq | hlt
        · exact Or.inr ⟨heq.symm, hb y (List.mem_cons_self _ _)⟩
        · exact Or.inl hlt
      · have hjy := hjrest y hyr
        rcases hjy with hlt | ⟨heq, hyj⟩
        · exact Or.inl (lt_of_lt_of_le hlt hji)
        · rcases eq_or_lt_of_le hji with heq2 | hlt2
          · exact Or.inr ⟨heq2.symm.trans heq, hb y (List.mem_cons_of_mem _ hyr)⟩
          · exact Or.inl (lt_of_le_of_lt heq.ge hlt2)

lemma argsort_fold_pairwise (s : List ℚ) :
    ∀ (l : List ℕ) (acc : List ℕ), l.Pairwise (· < ·) →
      acc.Pairwise (DescTie s) → (∀ j ∈ acc, ∀ i ∈ l, j < i) →
      (l.foldl (fun a i => insertByScore s i a) acc).Pairwise (DescTie s) ∧
      ∀ x ∈ l.foldl (fun a i => insertByScore s i a) acc, x ∈ acc ∨ x ∈ l := by
  intro l
  induction l with
  | nil => exact fun acc _ hacc _ => ⟨hacc, fun x hx => Or.inl hx⟩
  | cons i l ih =>
    intro acc hl hacc hcross
    rw [List.pairwise_cons] at hl
    obtain ⟨hil, hl'⟩ := hl
    simp only [List.foldl_cons]
    have hacc' := pairwise_insertByScore hacc
      (fun j hj => hcross j hj i (List.mem_cons_self _ _))
    have hcross' : ∀ j ∈ insertByScore s i acc, ∀ i' ∈ l, j < i' := by
      intro j hj i' hi'
      rcases mem_insertByScore.mp hj with rfl | hja
      · exact hil i' hi'
      · exact hcross j hja i' (List.mem_cons_of_mem _ hi')
    obtain ⟨hpw, hmem⟩ := ih (insertByScore s i acc) hl' hacc' hcross'
    refine ⟨hpw, fun x hx => ?_⟩
    rcases hmem x hx with hxa | hxl
    · rcases mem_insertByScore.mp hxa with rfl | hxacc
      · exact Or.inr (List.mem_cons_self _ _)
      · exact Or.inl hxacc
    · exact Or.inr (List.mem_cons_of_mem _ hxl)

lemma pairwise_argsortDesc (s : List ℚ) :
    (argsortDesc s).Pairwise (DescTie s) :=
  (argsort_fold_pairwise s (List.range s.length) []
    (List.pairwise_lt_range _) List.Pairwise.nil (by simp)).1

lemma mem_argsortDesc {s : List ℚ} {x : ℕ} (hx : x ∈ argsortDesc s) :
    x < s.length := by
  rcases (argsort_fold_pairwise s (List.range s.length) []
      (List.pairwise_lt_range _) List.Pairwise.nil (by simp)).2 x hx with h | h
  · exact absurd h (List.not_mem_nil _)
  · exact List.mem_range.mp h

/-- The clip of the service keeps every value inside [0, 1]. -/
lemma clip_bounds (x : ℚ) :
    0 ≤ clip (1 / 1000000000) (1 - 1 / 1000000000) x ∧
    clip (1 / 1000000000) (1 - 1 / 1000000000) x ≤ 1 := by
  unfold clip
  constructor
  · exact le_trans (by norm_num) (le_max_left _ _)
  · exact max_le (by norm_num) (le_trans (min_le_right _ _) (by norm_num))

lemma serviceScores_bounds {art : Artifact} {h w : ℚ} :
    ∀ p ∈ serviceScores art h w, 0 ≤ p ∧ p ≤ 1 := by
  intro p hp
  simp only [serviceScores] at hp
  obtain ⟨y, _, rfl⟩ := List.mem_map.mp hp
  exact clip_bounds y

/-! ### Facts about the cross-validation repair step -/

lemma argmaxAux_lt (xs : List ℚ) : ∀ (i best : ℕ) (bv : ℚ), best < i →
    argmaxAux xs i best bv < i + xs.length := by
  induction xs with
  | nil =>
    intro i best bv hb
    simp only [argmaxAux, List.length_nil]
    omega
  | cons x xs ih =>
    intro i best bv hb
    by_cases hc : bv < x
    · simp only [argmaxAux, if_pos hc, List.length_cons]
      have hx := ih (i + 1) i x (Nat.lt_succ_self i)
      omega
    · simp only [argmaxAux, if_neg hc, List.length_cons]
      have hx := ih (i + 1) best bv (by omega)
      omega

lemma argmax_lt {s : List ℚ} (hs : s ≠ []) : argmax s < s.length := by
  cases s with
  | nil => exact absurd rfl hs
  | cons x xs =>
    have hx := argmaxAux_lt xs 1 0 x (by omega)
    simp only [argmax, List.length_cons]
    omega

lemma forceNonzero_sum_pos {s : List ℚ} (hs : s ≠ []) :
    0 < (forceNonzero s).sum := by
  unfold forceNonzero
  by_cases hz : (binarizeRow s).sum = 0
  · rw [if_pos hz]
    have hlen : argmax s < (binarizeRow s).length := by
      rw [binarizeRow, List.length_map]
      exact argmax_lt hs
    have hlt : argmax s < ((binarizeRow s).set (argmax s) 1).length := by
      rw [List.length_set]
      exact hlen
    have hsum : ((binarizeRow s).set (argmax s) 1).sum ≠ 0 := by
      intro h0
      have hall := List.sum_eq_zero_iff.mp h0
      have h1 := List.getElem_set_self hlt
      have h2 := hall _ (List.getElem_mem hlt)
      rw [h1] at h2
      exact one_ne_zero h2
    exact Nat.pos_of_ne_zero hsum
  · rw [if_neg hz]
    exact Nat.pos_of_ne_zero hz

/-! ### Concrete loaded artifacts used to instantiate the theorems.
The fitted models of a real bundle are opaque numeric functions; these small
stand-ins fix their outputs so that the surrounding repository logic can be
evaluated exactly. -/

/-- A neighbor label matrix (7 training rows, 2 tags): every neighbor is
labelled jogging and not walking. -/
def Y1 : List (List ℚ) := [[0, 1], [0, 1], [0, 1], [0, 1], [0, 1], [0, 1], [0, 1]]

/-- A loaded artifact whose neighbor model retains its label matrix
(sklearn's KNeighborsClassifier always stores `_y` after fit). -/
def art1 : Artifact :=
  { bins := bmiBins
    tags := ["walking".data, "jogging".data]
    predictProba := fun _ _ _ _ => [9 / 10, 1 / 10]
    kneighbors := fun _ _ _ _ => ([1, 1, 1, 1, 1, 1, 1], [0, 1, 2, 3, 4, 5, 6])
    knnLabels := some Y1
    knnPredict := fun _ _ _ _ => [0, 1] }

/-- A service that constructed with art1 loaded. -/
def st1 : ServiceState := ⟨some art1, none⟩

/-- A loaded artifact producing a tied probability vector. -/
def art2 : Artifact :=
  { bins := bmiBins
    tags := ["walking".data, "jogging".data]
    predictProba := fun _ _ _ _ => [1 / 2, 1 / 2]
    kneighbors := fun _ _ _ _ => ([1, 1, 1, 1, 1, 1, 1], [0, 1, 2, 3, 4, 5, 6])
    knnLabels := none
    knnPredict := fun _ _ _ _ => [0, 0] }

/-- A service constructed with art2 loaded. -/
def st2 : ServiceState := ⟨some art2, none⟩

/-! Evaluation lemmas for the concrete artifacts. -/

lemma clip_id {x : ℚ} (h1 : 1 / 1000000000 ≤ x)
    (h2 : x ≤ 1 - 1 / 1000000000) :
    clip (1 / 1000000000) (1 - 1 / 1000000000) x = x := by
  unfold clip
  rw [min_eq_left h2, max_eq_right h1]

lemma serviceScores_art1 (h w : ℚ) :
    serviceScores art1 h w = [9 / 10, 1 / 10] := by
  simp only [serviceScores, art1, List.map_cons, List.map_nil]
  rw [clip_id (by norm_num) (by norm_num), clip_id (by norm_num) (by norm_num)]

lemma serviceScores_art2 (h w : ℚ) :
    serviceScores art2 h w = [1 / 2, 1 / 2] := by
  simp only [serviceScores, art2, List.map_cons, List.map_nil]
  rw [clip_id (by norm_num) (by norm_num)]

lemma argsortDesc_pair_distinct :
    argsortDesc [(9 : ℚ) / 10, 1 / 10] = [0, 1] := by
  norm_num [argsortDesc, List.range_succ, List.range_zero, insertByScore,
    List.getD_cons_zero, List.getD_cons_succ]

lemma argsortDesc_pair_tie :
    argsortDesc [(1 : ℚ) / 2, 1 / 2] = [1, 0] := by
  norm_num [argsortDesc, List.range_succ, List.range_zero, insertByScore,
    List.getD_cons_zero, List.getD_cons_succ]

lemma tagToKorean_walking :
    tagToKorean ['w', 'a', 'l', 'k', 'i', 'n', 'g'] = ['걷', '기'] := by
  decide

lemma tagToKorean_jogging :
    tagToKorean ['j', 'o', 'g', 'g', 'i', 'n', 'g'] = ['조', '깅'] := by
  decide

lemma predictCore_art1_eval (h w : ℚ) :
    predictCore art1 h w 2 = [⟨"걷기".data, 9 / 10⟩, ⟨"조깅".data, 1 / 10⟩] := by
  simp only [predictCore, serviceScores_art1, argsortDesc_pair_distinct,
    List.take_succ_cons, List.take_zero, List.take_nil, List.map_cons,
    List.map_nil, List.getD_cons_zero, List.getD_cons_succ,
    show art1.tags = [['w', 'a', 'l', 'k', 'i', 'n', 'g'],
      ['j', 'o', 'g', 'g', 'i', 'n', 'g']] from rfl,
    tagToKorean_walking, tagToKorean_jogging]

lemma predictCore_art2_eval (h w : ℚ) :
    predictCore art2 h w 3 = [⟨"조깅".data, 1 / 2⟩, ⟨"걷기".data, 1 / 2⟩] := by
  simp only [predictCore, serviceScores_art2, argsortDesc_pair_tie,
    List.take_succ_cons, List.take_zero, List.take_nil, List.map_cons,
    List.map_nil, List.getD_cons_zero, List.getD_cons_succ,
    show art2.tags = [['w', 'a', 'l', 'k', 'i', 'n', 'g'],
      ['j', 'o', 'g', 'g', 'i', 'n', 'g']] from rfl,
    tagToKorean_walking, tagToKorean_jogging]

lemma recommendProba_art1 (h w bmi : ℚ) :
    recommendProba art1 h w bmi = [9 / 10, 1 / 10] := by
  simp only [recommendProba, art1, List.map_cons, List.map_nil]
  rw [clip_id (by norm_num) (by norm_num), clip_id (by norm_num) (by norm_num)]

lemma recommendWeights_art1 (h w bmi : ℚ) :
    recommendWeights art1 h w bmi =
      [1/7, 1/7, 1/7, 1/7, 1/7, 1/7, 1/7] := by
  norm_num [recommendWeights, art1, List.sum_cons, List.sum_nil]

lemma recommendScore_art1 (h w bmi : ℚ) :
    recommendScore art1 h w bmi = [63 / 100, 37 / 100] := by
  have hwavg : rowMatMul [1/7, 1/7, 1/7, 1/7, 1/7, 1/7, 1/7] Y1 = [0, 1] := by
    norm_num [rowMatMul, Y1, List.range_succ, List.range_zero,
      List.getD_cons_zero, List.getD_cons_succ, List.sum_cons, List.sum_nil]
  simp only [recommendScore, show art1.knnLabels = some Y1 from rfl,
    recommendProba_art1, recommendWeights_art1, hwavg,
    List.zipWith_cons_cons, List.zipWith_nil_right]
  norm_num

/-! ### Claim C1: train/serve bucket parity -/

/-- C1 counterexample: at height 200 cm, weight 64 kg the BMI is exactly 16;
the batch trainer's and the live service's pd.cut bucket is 0 while
recommend_top3's digitize bucket is 1, so the three bucket computations are
not all equal — the parity claim fails exactly at a boundary value it
includes. -/
theorem C1_bucket_parity_counterexample :
    serviceBmi 200 64 = 16 ∧ computeBmi 200 64 = some 16 ∧
    trainBmiBucket 16 = some 0 ∧ serveBmiBucket bmiBins 16 = some 0 ∧
    recommendBmiBucket bmiBins 16 = 1 := by
  norm_num [serviceBmi, computeBmi, trainBmiBucket, serveBmiBucket,
    pdCutBucket, bmiBins, pdCutGo, recommendBmiBucket, digitizeCount,
    List.filter_cons]

/-- C1 (amended): the batch trainer and the live inference service compute
identical buckets for every BMI (both invoke pd.cut with the same saved
bins), and recommend_top3 agrees with them for every BMI inside [0, 100]
that is not exactly an interior boundary 16, 18.5, 23, 25, 30 or 35; at
those boundaries recommend_top3 assigns one bucket higher, and outside
[0, 100] the pd.cut paths produce no bucket while recommend_top3 clamps. -/
theorem C1_bucket_parity_amended :
    (∀ x : ℚ, serveBmiBucket bmiBins x = trainBmiBucket x) ∧
    (∀ x : ℚ, 0 ≤ x → x ≤ 100 →
      x ∉ ([16, 18.5, 23, 25, 30, 35] : List ℚ) →
      trainBmiBucket x = some (recommendBmiBucket bmiBins x)) := by
  refine ⟨fun x => rfl, fun x h0 h100 hnb => ?_⟩
  rw [digitize_eq_spec]
  exact pdCut_eq_spec x h0 h100 hnb

/-- C1 witness: the amended parity at BMI 20. -/
theorem C1_bucket_parity_amended_witness :
    serveBmiBucket bmiBins 20 = trainBmiBucket 20 ∧
    ((0 : ℚ) ≤ 20 ∧ (20 : ℚ) ≤ 100 ∧
      (20 : ℚ) ∉ ([16, 18.5, 23, 25, 30, 35] : List ℚ)) ∧
    trainBmiBucket 20 = some (recommendBmiBucket bmiBins 20) :=
  ⟨C1_bucket_parity_amended.1 20,
   ⟨by norm_num, by norm_num, by norm_num [List.mem_cons]⟩,
   C1_bucket_parity_amended.2 20 (by norm_num) (by norm_num)
     (by norm_num [List.mem_cons])⟩

/-! ### Claim C2: BMI bucket semantics -/

/-- C2 counterexample: at BMI exactly 18.5 the trainer/service bucket is 1
(the pd.cut interval whose upper bound is 18.5) while the spec's half-open
interval index is 2; and at BMI 101 pd.cut yields no bucket instead of
clamping to edge bucket 6. -/
theorem C2_bucket_semantics_counterexample :
    serveBmiBucket bmiBins (37 / 2) = some 1 ∧
    trainBmiBucket (37 / 2) = some 1 ∧
    specBmiBucket (37 / 2) = 2 ∧
    serveBmiBucket bmiBins 101 = none ∧ specBmiBucket 101 = 6 := by
  norm_num [serveBmiBucket, trainBmiBucket, pdCutBucket, bmiBins, pdCutGo,
    specBmiBucket]

/-- C2 (amended): the claimed semantics — index of the half-open interval
[boundaries[i], boundaries[i+1]) with the leftmost boundary inclusive and
out-of-range values clamped to the edge buckets — is realized exactly by
recommend_top3's digitize bucket; the trainer/service pd.cut bucket instead
uses right-closed intervals and yields no bucket outside [0, 100]. -/
theorem C2_bucket_semantics_amended :
    ∀ x : ℚ, recommendBmiBucket bmiBins x = specBmiBucket x :=
  digitize_eq_spec

/-! ### Claim C3: hybrid scoring -/

/-- C3 counterexample: art1's neighbor model retains its label matrix, and
every row of that matrix is [0, 1] — so the claim's inverse-distance-
weighted average of the 7 nearest neighbors' labels is [0, 1] (the weights
sum to 1 over identical rows, whether taken neighbor-indexed or, as the
source's `(w @ knn._y)[0]` actually does, in storage order), making the
claimed hybrid score [63/100, 37/100]; yet the live inference path returns
the bare clipped logistic probabilities [9/10, 1/10]: label retention does
not make the service's score hybrid. -/
theorem C3_hybrid_scoring_counterexample :
    art1.knnLabels = some Y1 ∧
    Y1 = List.replicate 7 [0, 1] ∧
    servicePredict st1 170 70 2 (11 / 20) =
      .ok [⟨"걷기".data, 9 / 10⟩, ⟨"조깅".data, 1 / 10⟩] ∧
    recommendScore art1 170 70 (serviceBmi 170 70) = [63 / 100, 37 / 100] ∧
    ((9 : ℚ) / 10 ≠ 63 / 100 ∧ (1 : ℚ) / 10 ≠ 37 / 100) := by
  refine ⟨rfl, rfl, ?_, recommendScore_art1 170 70 (serviceBmi 170 70),
    by norm_num⟩
  simp only [servicePredict, st1, Option.or, predictCore_art1_eval]
  norm_num

/-- C3 (amended): the live service's final score is the clipped logistic
probability vector regardless of whether the neighbor model retains its
label matrix (the hybrid combination is commented out in the service); the
0.7/0.3 hybrid combination is computed only by the recommend_top3 helper,
whose score_knn, when the label matrix is retained, is `(w @ knn._y)[0]` —
the inverse-distance weights applied to the label-matrix rows in storage
order, not indexed by the computed neigh_idx, and shape-correct only when
the training set has exactly 7 rows — and, when the labels are not
retained, is knn.predict on the query row, so the fallback is
0.7·proba_lr + 0.3·knn.predict, not proba_lr alone. -/
theorem C3_hybrid_scoring_amended (art : Artifact)
    (L : Option (List (List ℚ))) (h w bmi : ℚ) (k : ℕ) :
    predictCore { art with knnLabels := L } h w k = predictCore art h w k ∧
    (∀ Y, art.knnLabels = some Y →
      recommendScore art h w bmi =
        List.zipWith (fun p q => 7 / 10 * p + 3 / 10 * q)
          (recommendProba art h w bmi)
          (rowMatMul (recommendWeights art h w bmi) Y)) ∧
    (art.knnLabels = none →
      recommendScore art h w bmi =
        List.zipWith (fun p q => 7 / 10 * p + 3 / 10 * q)
          (recommendProba art h w bmi)
          (art.knnPredict h w bmi
            (some (recommendBmiBucket art.bins bmi)))) := by
  refine ⟨rfl, fun Y hY => ?_, fun hN => ?_⟩
  · simp only [recommendScore, hY]
  · simp only [recommendScore, hN]

/-- C3 witness: both branches of the amended claim at concrete artifacts. -/
theorem C3_hybrid_scoring_amended_witness :
    (art1.knnLabels = some Y1 ∧
      recommendScore art1 170 70 16 =
        List.zipWith (fun p q => 7 / 10 * p + 3 / 10 * q)
          (recommendProba art1 170 70 16)
          (rowMatMul (recommendWeights art1 170 70 16) Y1)) ∧
    (art2.knnLabels = none ∧
      recommendScore art2 170 70 16 =
        List.zipWith (fun p q => 7 / 10 * p + 3 / 10 * q)
          (recommendProba art2 170 70 16)
          (art2.knnPredict 170 70 16
            (some (recommendBmiBucket art2.bins 16)))) :=
  ⟨⟨rfl, (C3_hybrid_scoring_amended art1 (some Y1) 170 70 16 3).2.1 Y1 rfl⟩,
   ⟨rfl, (C3_hybrid_scoring_amended art2 none 170 70 16 3).2.2 rfl⟩⟩

/-! ### Claim C4: error distinction -/

/-- C4 counterexample: with a loaded artifact, a query with height −170 cm
(≤ 0) is not rejected as InvalidInput — predict_prescription accesses the
model and returns a normal prediction. -/
theorem C4_error_distinction_counterexample :
    servicePredict st1 (-170) 70 2 (11 / 20) =
      .ok [⟨"걷기".data, 9 / 10⟩, ⟨"조깅".data, 1 / 10⟩] := by
  simp only [servicePredict, st1, Option.or, predictCore_art1_eval]
  norm_num

/-- C4 (amended): the height > 0 rejection lives in the PrescriptionRequest
pydantic schema — which rejects every request with height ≤ 0 before any
service code runs, but which no deployed caller of predict parses — not in
predict_prescription itself; when no artifact is loaded and the lazy load
finds none, predict signals the model-unavailable error (before any feature
computation), an error distinct from the generic prediction-failure
error. -/
theorem C4_error_distinction_amended :
    (∀ h w : ℚ, ∀ k : ℕ, ∀ t : ℚ, h ≤ 0 →
      validPrescriptionRequest h w k t = false) ∧
    (∀ st : ServiceState, ∀ h w : ℚ, ∀ k : ℕ, ∀ t : ℚ,
      st.loaded = none → st.diskArtifact = none →
      servicePredict st h w k t = .error .modelUnavailable) ∧
    PredictErr.modelUnavailable ≠ PredictErr.predictionFailed := by
  refine ⟨?_, ?_, by decide⟩
  · intro h w k t hle
    have hn : ¬(0 < h) := not_lt.mpr hle
    simp [validPrescriptionRequest, hn]
  · intro st h w k t h1 h2
    simp [servicePredict, h1, h2, Option.or]

/-- C4 witness: the schema rejects height −1; a service with nothing loaded
and nothing on disk reports model-unavailable. -/
theorem C4_error_distinction_amended_witness :
    ((-1 : ℚ) ≤ 0 ∧
      validPrescriptionRequest (-1) 70 3 (11 / 20) = false) ∧
    servicePredict ⟨none, none⟩ 170 70 3 (11 / 20) =
      .error .modelUnavailable :=
  ⟨⟨by norm_num, C4_error_distinction_amended.1 (-1) 70 3 (11 / 20) (by norm_num)⟩,
   C4_error_distinction_amended.2.1 ⟨none, none⟩ 170 70 3 (11 / 20) rfl rfl⟩

/-! ### Claim C5: empty-dataset atomicity -/

/-- C5: for every dataset in which zero usable examples survive the
filters (missing/empty fields, out-of-range height/weight/BMI, zero
extracted tags), train_model returns on an early path: it produces no
TrainOutput, so none of the four artifact files is written or
overwritten. -/
theorem C5_empty_dataset_atomicity (records : List RawRecord)
    (h : preparedRows records = []) : trainModel records = none := by
  simp only [trainModel]
  split_ifs <;> rfl

/-- Ten records with no note leave nothing after the filters. -/
lemma preparedRows_missing_notes :
    preparedRows (List.replicate 10 (⟨some 170, some 70, none⟩ : RawRecord))
      = [] := by
  simp [preparedRows, trainRows1, usableLoad, List.replicate]

/-- C5 witness: the spec's scenario — ten records all missing their note —
leaves no usable example and training writes nothing. -/
theorem C5_empty_dataset_atomicity_witness :
    preparedRows (List.replicate 10 (⟨some 170, some 70, none⟩ : RawRecord))
        = [] ∧
    trainModel (List.replicate 10 (⟨some 170, some 70, none⟩ : RawRecord))
        = none :=
  ⟨preparedRows_missing_notes,
   C5_empty_dataset_atomicity
     (List.replicate 10 (⟨some 170, some 70, none⟩ : RawRecord))
     preparedRows_missing_notes⟩

/-! ### Claim C6: ranking invariant -/

/-- C6 counterexample: with a loaded artifact whose two tags tie at score
1/2, predict returns jogging (vocabulary index 1) before walking
(vocabulary index 0): the reversal of the ascending argsort breaks ties by
reverse vocabulary order, refuting the claimed stable vocabulary-order
tie-break. -/
theorem C6_ranking_counterexample :
    art2.tags = ["walking".data, "jogging".data] ∧
    servicePredict st2 170 70 3 (11 / 20) =
      .ok [⟨"조깅".data, 1 / 2⟩, ⟨"걷기".data, 1 / 2⟩] := by
  refine ⟨rfl, ?_⟩
  simp only [servicePredict, st2, Option.or, predictCore_art2_eval]
  norm_num

/-- C6 (amended): for every loaded artifact and valid query the prediction
result has length at most top_k, its probabilities are non-increasing
across the sequence and lie in [0, 1]; ties in score are broken by REVERSE
tag vocabulary order (larger tag index first), the order produced by
reversing a stable ascending argsort. -/
theorem C6_ranking_amended (art : Artifact) (h w : ℚ) (k : ℕ)
    (hk1 : 1 ≤ k) (hk10 : k ≤ 10) (hh : 0 < h) (hw : 0 < w) :
    (predictCore art h w k).length ≤ k ∧
    (predictCore art h w k).Pairwise (fun a b => b.prob ≤ a.prob) ∧
    (∀ c ∈ predictCore art h w k, 0 ≤ c.prob ∧ c.prob ≤ 1) ∧
    ((argsortDesc (serviceScores art h w)).take k).Pairwise
      (DescTie (serviceScores art h w)) := by
  have hcore : predictCore art h w k =
      ((argsortDesc (serviceScores art h w)).take k).map
        (fun i => ⟨tagToKorean (art.tags.getD i []),
          (serviceScores art h w).getD i 0⟩) := rfl
  have htake : ((argsortDesc (serviceScores art h w)).take k).Pairwise
      (DescTie (serviceScores art h w)) :=
    List.Pairwise.sublist (List.take_sublist _ _) (pairwise_argsortDesc _)
  refine ⟨?_, ?_, ?_, htake⟩
  · rw [hcore, List.length_map, List.length_take]
    exact min_le_left _ _
  · rw [hcore, List.pairwise_map]
    refine List.Pairwise.imp ?_ htake
    intro i j hij
    rcases hij with hlt | ⟨heq, _⟩
    · exact le_of_lt hlt
    · exact le_of_eq heq.symm
  · rw [hcore]
    intro c hc
    obtain ⟨i, hi, rfl⟩ := List.mem_map.mp hc
    have hilen : i < (serviceScores art h w).length :=
      mem_argsortDesc (List.take_subset _ _ hi)
    have hmemS : (serviceScores art h w).getD i 0 ∈ serviceScores art h w := by
      rw [List.getD_eq_getElem _ 0 hilen]
      exact List.getElem_mem hilen
    exact serviceScores_bounds _ hmemS

/-- C6 witness: the amended ranking invariant at a concrete artifact and
query. -/
theorem C6_ranking_amended_witness :
    ((1 : ℕ) ≤ 3 ∧ (3 : ℕ) ≤ 10 ∧ (0 : ℚ) < 170 ∧ (0 : ℚ) < 70) ∧
    ((predictCore art1 170 70 3).length ≤ 3 ∧
      (predictCore art1 170 70 3).Pairwise (fun a b => b.prob ≤ a.prob) ∧
      (∀ c ∈ predictCore art1 170 70 3, 0 ≤ c.prob ∧ c.prob ≤ 1) ∧
      ((argsortDesc (serviceScores art1 170 70)).take 3).Pairwise
        (DescTie (serviceScores art1 170 70))) :=
  ⟨⟨by norm_num, by norm_num, by norm_num, by norm_num⟩,
   C6_ranking_amended art1 170 70 3 (by norm_num) (by norm_num)
     (by norm_num) (by norm_num)⟩

/-! ### Claim C7: cross-validation protocol -/

/-- C7: cross-validation uses min(5, max(2, n_samples/50)) shuffled folds
under the fixed seed 42; each validation row is scored with
0.7·logistic_proba + 0.3·knn_label_average, binarized at threshold 1/2, and
a row whose binarized prediction is all-zero gets exactly its top-scoring
entry forced to 1, so no evaluated row has zero predicted tags. -/
theorem C7_cross_validation (n : ℕ) (proba knn : List ℚ)
    (hne : cvScoreRow proba knn ≠ []) :
    nSplitsFor n = min 5 (max 2 (n / 50)) ∧
    cvShuffle = true ∧ RANDOM_STATE = 42 ∧
    cvScoreRow proba knn =
      List.zipWith (fun p q => 7 / 10 * p + 3 / 10 * q) proba knn ∧
    binarizeRow (cvScoreRow proba knn) =
      (cvScoreRow proba knn).map (fun x => if 1 / 2 ≤ x then 1 else 0) ∧
    0 < (forceNonzero (cvScoreRow proba knn)).sum :=
  ⟨rfl, rfl, rfl, rfl, rfl, forceNonzero_sum_pos hne⟩

/-- C7 witness: a row scoring [0.07] binarizes to all-zero and gets its top
tag forced, leaving one predicted tag. -/
theorem C7_cross_validation_witness :
    cvScoreRow [1 / 10] [0] ≠ [] ∧
    0 < (forceNonzero (cvScoreRow [1 / 10] [0])).sum :=
  ⟨by decide, (C7_cross_validation 120 [1 / 10] [0] (by decide)).2.2.2.2.2⟩

/-! ### Claim C8: extractor monotonicity -/

/-- C8: for every note s and appended text t, every tag extracted from s is
also extracted from s ++ t — a keyword matching as a plain substring of the
normalized note keeps matching, because the normalized note is a prefix of
the normalized extension. -/
theorem C8_extractor_monotone (s t tag : List Char)
    (h : tag ∈ extractFromNote s) : tag ∈ extractFromNote (s ++ t) := by
  unfold extractFromNote extractTags at h ⊢
  obtain ⟨p, hp, hptag⟩ := List.mem_map.mp h
  have hmem := (List.mem_filter.mp hp).1
  have hcond := (List.mem_filter.mp hp).2
  obtain ⟨kw, hkw, hsub⟩ := List.any_eq_true.mp hcond
  have hinf : kw <:+: normalizeText s := of_decide_eq_true hsub
  obtain ⟨m, hm⟩ := normalizeText_prefix s t
  obtain ⟨pre, suf, hps⟩ := hinf
  have hinf2 : kw <:+: normalizeText (s ++ t) := by
    refine ⟨pre, suf ++ m, ?_⟩
    rw [← hm, ← hps]
    simp [List.append_assoc]
  refine List.mem_map.mpr ⟨p, List.mem_filter.mpr ⟨hmem, ?_⟩, hptag⟩
  exact List.any_eq_true.mpr ⟨kw, hkw, decide_eq_true hinf2⟩

/-- C8 witness: walking stays extracted after appending more text. -/
theorem C8_extractor_monotone_witness :
    "walking".data ∈ extractFromNote "걷기".data ∧
    "walking".data ∈ extractFromNote ("걷기".data ++ " 스쿼트".data) :=
  ⟨by decide, C8_extractor_monotone _ _ _ (by decide)⟩

/-! ### Claim C9: no-empty-label invariant -/

/-- C9: every training row that survives the Dataset Preparer's filters has
a non-empty tag list — rows with no extractable tag are dropped before the
label matrix is built. -/
theorem C9_no_empty_label (records : List RawRecord) (out : TrainOutput)
    (h : trainModel records = some out) : ∀ r ∈ out.rows, r.tags ≠ [] := by
  simp only [trainModel] at h
  split_ifs at h with h0 h1 h2
  injection h with h'
  subst h'
  intro r hr
  exact of_decide_eq_true (List.mem_filter.mp hr).2

/-- The concrete training output of a one-record dataset. -/
def sampleTrainOutput : TrainOutput :=
  ⟨[⟨170, 70, "걷기".data, 7000 / 289, ["walking".data]⟩],
   [[1, 0, 0, 0, 0, 0, 0, 0, 0, 0]], [some 3], TAGS, bmiBins, 1⟩

lemma usableLoad_good :
    usableLoad ⟨some 170, some 70, some ['걷', '기']⟩ =
      some (170, 70, ['걷', '기']) := by
  simp only [usableLoad]
  rw [if_pos ⟨by norm_num, by norm_num, by decide⟩]
  rw [show stripWs ['걷', '기'] = ['걷', '기'] from by decide]

lemma computeBmi_good : computeBmi 170 70 = some (7000 / 289) := by
  norm_num [computeBmi]

lemma trainRows1_good :
    trainRows1 [⟨some 170, some 70, some ['걷', '기']⟩] =
      [⟨170, 70, ['걷', '기'], 7000 / 289,
        [['w', 'a', 'l', 'k', 'i', 'n', 'g']]⟩] := by
  have hnorm : normalizeText ['걷', '기'] = ['걷', '기'] := by decide
  have htags : extractFromNote ['걷', '기'] =
      [['w', 'a', 'l', 'k', 'i', 'n', 'g']] := by decide
  have hinlier : inlierRow 170 70 (some (7000 / 289)) = true := by
    norm_num [inlierRow, betweenQ, MIN_HEIGHT, MAX_HEIGHT, MIN_WEIGHT,
      MAX_WEIGHT, MIN_BMI, MAX_BMI]
  simp only [trainRows1, usableLoad_good, List.filterMap_cons,
    List.filterMap_nil, computeBmi_good, hinlier, hnorm, htags, if_true]

lemma preparedRows_good :
    preparedRows [⟨some 170, some 70, some ['걷', '기']⟩] =
      [⟨170, 70, ['걷', '기'], 7000 / 289,
        [['w', 'a', 'l', 'k', 'i', 'n', 'g']]⟩] := by
  have hkeep : (decide (([['w', 'a', 'l', 'k', 'i', 'n', 'g']] :
      List (List Char)) ≠ [])) = true := by decide
  simp [preparedRows, trainRows1_good, List.filter_cons, hkeep]

lemma trainModel_good :
    trainModel [(⟨some 170, some 70, some "걷기".data⟩ : RawRecord)] =
      some sampleTrainOutput := by
  have hY : toMultihot [['w', 'a', 'l', 'k', 'i', 'n', 'g']] TAGS =
      [1, 0, 0, 0, 0, 0, 0, 0, 0, 0] := by decide
  have hbucket : trainBmiBucket (7000 / 289) = some 3 := by
    norm_num [trainBmiBucket, pdCutBucket, bmiBins, pdCutGo]
  have hrows0 :
      ([(⟨some 170, some 70, some ['걷', '기']⟩ : RawRecord)]).filterMap
        usableLoad = [(170, 70, ['걷', '기'])] := by
    simp [List.filterMap_cons, usableLoad_good]
  simp [trainModel, hrows0, trainRows1_good, preparedRows_good,
    sampleTrainOutput, hY, hbucket]

/-- C9 witness: a one-record dataset trains to a single row whose tag list
is non-empty. -/
theorem C9_no_empty_label_witness :
    trainModel [(⟨some 170, some 70, some "걷기".data⟩ : RawRecord)] =
      some sampleTrainOutput ∧
    ∀ r ∈ sampleTrainOutput.rows, r.tags ≠ [] :=
  ⟨trainModel_good,
   C9_no_empty_label [(⟨some 170, some 70, some "걷기".data⟩ : RawRecord)]
     sampleTrainOutput trainModel_good⟩

/-! ### Claim C10: threshold noninterference -/

/-- C10: two calls to predict_prescription differing only in the conf_thr
argument return identical results — the confidence threshold is accepted by
the interface but never read, filtering nothing and influencing nothing. -/
theorem C10_threshold_noninterference (st : ServiceState) (h w : ℚ)
    (k : ℕ) (t₁ t₂ : ℚ) :
    servicePredict st h w k t₁ = servicePredict st h w k t₂ := rfl

end WorkoutRec

